import Mathlib

/-!
Shallow embedding of `src/app.py` (a Streamlit gTTS + speech-to-text page)
and proofs about its event handlers.

The embedding models:
* the Speak (TTS) button handler (empty-text warning, language
  normalization `lang.split("-")[0]`, scratch .mp3 file lifecycle);
* `transcribe_wav_bytes` (scratch .wav file lifecycle, classified
  recognizer failures);
* the "Record using WebRTC" button handler (poll loop, frame downmix and
  concatenation, sample-rate selection, empty-capture branch);
* the upload fallback handler (pydub normalization, error branch);
* the page-level webrtc try/except fallback;
* the transcript display block and the
  "Put transcription into TTS text area" button.

External collaborators (gTTS, pydub, the Google recognizer, the webrtc
audio receiver) are modelled as oracle parameters; raised exceptions are
modelled with `Except`/`Option`; the pool of scratch temporary files is
modelled as a count threaded through the handlers; numpy float samples
are modelled as rationals.
-/

/-- Python `str.split("-")` on a list of characters: split at every
hyphen, keeping empty segments, never returning an empty list. -/
def pySplitHyphenAux : List Char → List Char → List (List Char)
  | [], acc => [acc.reverse]
  | c :: cs, acc =>
      if c = '-' then acc.reverse :: pySplitHyphenAux cs []
      else pySplitHyphenAux cs (c :: acc)

/-- Python `s.split("-")`. -/
def pySplitHyphen (s : String) : List String :=
  (pySplitHyphenAux s.toList []).map String.mk

/-- `gtts_lang = lang.split("-")[0]` from the Speak handler
(src/app.py line 56).  The default of `headD` is unreachable because
Python `split` always returns a non-empty list. -/
def gttsLang (lang : String) : String :=
  (pySplitHyphen lang).headD lang

/-- Modelled from the spec: the base language code is "the segment
before the first hyphen" of the selection.  Stated independently of
`gttsLang` so the two can be compared. -/
def specBaseCode (lang : String) : String :=
  String.mk (lang.toList.takeWhile (fun c => !(c = '-')))

/-- Characters removed by Python `str.strip()` (ASCII whitespace). -/
def isPySpace (c : Char) : Bool :=
  c = ' ' || c = '\t' || c = '\n' || c = '\r' || c = '\x0b' || c = '\x0c'

/-- Python `s.strip()`. -/
def pyStrip (s : String) : String :=
  String.mk (((s.toList.dropWhile isPySpace).reverse.dropWhile isPySpace).reverse)

/-- The language selectbox options (src/app.py line 38). -/
def langOptions : List String := ["en", "en-uk", "en-us", "de", "fr"]

/-- Observable effects of one press of the Speak (TTS) button
(src/app.py lines 52-68). -/
structure SpeakResult where
  /-- the `st.warning` message, when shown -/
  warning : Option String
  /-- the `(text, lang)` arguments of the `gTTS(...)` call, when made -/
  synthCall : Option (String × String)
  /-- an exception propagating out of the handler (gTTS save/read
  failures are not caught, only cleaned up after) -/
  raised : Option String
  deriving DecidableEq, Repr

/-- The Speak (TTS) button handler (src/app.py lines 52-68).
`saveOk` is the oracle for whether `tts.save` (the synthesizer call)
succeeds; `fs` counts live scratch temporary files.  The
`tempfile.NamedTemporaryFile` creates one scratch file and the
`finally` block unlinks it on every exit path. -/
def speakHandler (text lang : String) (saveOk : Bool) (fs : Nat) :
    SpeakResult × Nat :=
  if pyStrip text = "" then
    ({ warning := some "Please enter some text.",
       synthCall := none, raised := none }, fs)
  else
    let fsOpen := fs + 1
    ({ warning := none,
       synthCall := some (text, gttsLang lang),
       raised := if saveOk then none else some "gTTS save failed" },
     fsOpen - 1)

/-- Classified outcomes of `recog.recognize_google` (src/app.py
lines 88-92): success, the two caught exception classes, and any other
exception (which propagates). -/
inductive RecogOutcome where
  | ok (transcriptText : String)
  | unknownValue
  | requestError (detail : String)
  | other (detail : String)
  deriving DecidableEq, Repr

/-- `transcribe_wav_bytes` (src/app.py lines 79-97).  `audioFileOk`
is the oracle for whether `sr.AudioFile` + `recog.record` succeed on
the bytes; `recogGoogle` is the recognizer oracle; `fs` counts live
scratch temporary files.  A scratch .wav file is created, the body may
raise (modelled by `.error`), and the `finally` block unlinks the file
on every exit path. -/
def transcribe_wav_bytes (audioFileOk : List Nat → Bool)
    (recogGoogle : List Nat → RecogOutcome)
    (wavBytes : List Nat) (fs : Nat) : Except String String × Nat :=
  let fsOpen := fs + 1
  let body : Except String String :=
    if audioFileOk wavBytes then
      match recogGoogle wavBytes with
      | .ok t => .ok t
      | .unknownValue => .ok "(Could not understand audio)"
      | .requestError e => .ok ("(Could not request results; " ++ e ++ ")")
      | .other e => .error e
    else .error "audio data could not be read"
  (body, fsOpen - 1)

/-- The `st.file_uploader` allow-list (src/app.py line 166). -/
def uploadTypes : List String := ["wav", "mp3", "m4a", "webm"]

/-- Whether the uploader accepts a file with the given container hint
(extension), per the `type=` argument of `st.file_uploader`. -/
def uploaderAccepts (hint : String) : Bool :=
  uploadTypes.contains hint

/-- Observable effects of the upload fallback handler. -/
structure UploadOutcome where
  /-- the transcript produced, when any -/
  transcript : Option String
  /-- the `st.error` message, when shown -/
  errorShown : Option String
  /-- whether `transcribe_wav_bytes` (the transcriber) was invoked -/
  transcriberInvoked : Bool
  deriving DecidableEq, Repr

/-- The upload fallback handler (src/app.py lines 167-179).
`normalize` is the AudioNormalizer oracle
(`AudioSegment.from_file` + `export`: raw bytes to wav bytes, or a
raised exception); the whole body is wrapped in try/except, so any
exception - from normalization or from transcription - becomes an
`st.error` message. -/
def uploadHandler (normalize : List Nat → Except String (List Nat))
    (audioFileOk : List Nat → Bool) (recogGoogle : List Nat → RecogOutcome)
    (raw : List Nat) (fs : Nat) : UploadOutcome × Nat :=
  match normalize raw with
  | .error e =>
      ({ transcript := none,
         errorShown := some ("Upload conversion/transcription failed: " ++ e),
         transcriberInvoked := false }, fs)
  | .ok wavbytes =>
      let r := transcribe_wav_bytes audioFileOk recogGoogle wavbytes fs
      match r.1 with
      | .ok t =>
          ({ transcript := some t, errorShown := none,
             transcriberInvoked := true }, r.2)
      | .error e =>
          ({ transcript := none,
             errorShown := some ("Upload conversion/transcription failed: " ++ e),
             transcriberInvoked := true }, r.2)

/-- The array obtained from one webrtc audio frame
(`frame.to_ndarray()`): either one-dimensional, or two-dimensional as
a rectangular list of channels (numpy shape `(channels, samples)`).
Samples are modelled as rationals. -/
inductive FrameData where
  | mono (samples : List ℚ)
  | multi (channels : List (List ℚ))
  deriving DecidableEq, Repr

/-- One received audio frame.  `sample_rate = none` models the
`frame.sample_rate` attribute access raising. -/
structure Frame where
  data : FrameData
  sample_rate : Option Nat
  deriving DecidableEq, Repr

/-- The per-frame conversion in the record handler (src/app.py
lines 137-141): a two-dimensional array is downmixed with
`np.mean(arr, axis=0)` (for numpy shape `(C, S)` this is the list of
column means), a one-dimensional array is kept as is. -/
def downmix : FrameData → List ℚ
  | .mono s => s
  | .multi chans =>
      (List.range (chans.headD []).length).map
        (fun j => (chans.map (fun ch => ch.getD j 0)).sum / (chans.length : ℚ))

/-- The WAV payload handed to `sf.write` (samples and sample rate). -/
structure WavData where
  samples : List ℚ
  rate : Nat
  deriving DecidableEq, Repr

/-- The frame loop of the record handler (src/app.py lines 133-148):
downmixed frames are concatenated in arrival order, and `sr_rate` is
taken from the first frame (48000 when the attribute access raises). -/
def buildWav (frames : List Frame) : WavData :=
  { samples := (frames.map (fun f => downmix f.data)).flatten
    rate := match frames with
      | [] => 48000
      | f :: _ => f.sample_rate.getD 48000 }

/-- Observable effects of one press of the Record using WebRTC
button. -/
structure RecordResult where
  /-- the wav data handed to `sf.write`, when produced -/
  wav : Option WavData
  /-- the `st.error` message, when shown -/
  errorMsg : Option String
  /-- whether `sf.write` (waveform-to-WAV conversion) was invoked -/
  normalizerInvoked : Bool
  deriving DecidableEq, Repr

/-- The Record using WebRTC button handler (src/app.py
lines 117-157).  `playing` is `webrtc_ctx.state.playing`; `polls` is
the sequence of results of `audio_receiver.get_frames` over the poll
loop (a poll that raises yields `[]`, src/app.py lines 123-126);
`frames` accumulates them in arrival order. -/
def recordHandler (playing : Bool) (polls : List (List Frame)) : RecordResult :=
  if playing then
    let frames := polls.flatten
    if frames.isEmpty then
      { wav := none,
        errorMsg := some "No frames captured. Try allowing microphone or use upload fallback below.",
        normalizerInvoked := false }
    else
      { wav := some (buildWav frames), errorMsg := none,
        normalizerInvoked := true }
  else
    { wav := none,
      errorMsg := some "WebRTC streamer is not running. Use the upload fallback below.",
      normalizerInvoked := false }

/-- Page-level outcome of the webrtc section followed by the upload
fallback section (src/app.py lines 102-166). -/
structure SttPageResult where
  /-- value of `webrtc_available` after the section ran -/
  webrtcAvailableAfter : Bool
  /-- the `st.error` message of the except branch, when shown -/
  initErrorShown : Option String
  /-- the exception detail echoed by `st.exception`, when shown -/
  initExceptionShown : Option String
  /-- whether the upload fallback widgets are rendered -/
  uploadOffered : Bool
  /-- an exception propagating out to the page, fatal to the rerun -/
  raisedToPage : Option String
  deriving DecidableEq, Repr

/-- The webrtc attempt block plus the unconditional upload fallback
(src/app.py lines 102-166).  `webrtcImportOk` is whether the
`streamlit_webrtc` import succeeded (src/app.py lines 15-20);
`initResult` is the oracle for the guarded block (widget creation and
the record UI): `.error e` models a raised exception, which the
`except` branch converts into error messages and
`webrtc_available = False`.  The upload section is outside the guard
and always runs. -/
def sttPage (webrtcImportOk : Bool) (initResult : Except String Unit) :
    SttPageResult :=
  if webrtcImportOk then
    match initResult with
    | .ok _ =>
        { webrtcAvailableAfter := true, initErrorShown := none,
          initExceptionShown := none, uploadOffered := true,
          raisedToPage := none }
    | .error e =>
        { webrtcAvailableAfter := false,
          initErrorShown := some "WebRTC recording failed to initialize - falling back to upload-only mode.",
          initExceptionShown := some e, uploadOffered := true,
          raisedToPage := none }
  else
    { webrtcAvailableAfter := false, initErrorShown := none,
      initExceptionShown := none, uploadOffered := true,
      raisedToPage := none }

/-- The session state visible across reruns: the single
`st.session_state["tts_text"]` slot. -/
structure PageState where
  tts_text : String
  deriving DecidableEq, Repr

/-- The body of the "Put transcription into TTS text area" button
(src/app.py line 190): `st.session_state["tts_text"] = transcript`. -/
def confirmAndCopy (st : PageState) (result : String) : PageState :=
  { st with tts_text := result }

/-- The transcript display block (src/app.py lines 186-192).
`transcript` is `none` when still `None` (src/app.py line 99); Python
`if transcript:` is false for `None` and for the empty string.
Returns the resulting session state and whether the copy button was
offered. -/
def transcriptBlock (transcript : Option String) (clicked : Bool)
    (st : PageState) : PageState × Bool :=
  match transcript with
  | none => (st, false)
  | some t =>
      if t = "" then (st, false)
      else (if clicked then confirmAndCopy st t else st, true)

/-- On every option of the language selectbox, `lang.split("-")[0]`
agrees with the spec reading "segment before the first hyphen". -/
theorem gttsLang_eq_specBaseCode_on_options :
    ∀ lang ∈ langOptions, gttsLang lang = specBaseCode lang := by decide

/-- C1: for every synthesis text that is non-empty after stripping and
every language selection from the allow-list, the Speak handler calls
the Synthesizer with the segment of the selection before its first
hyphen; when the selection contains a hyphen, that base code differs
from the raw selection value. -/
theorem speak_uses_base_language_code (text lang : String) (saveOk : Bool)
    (fs : Nat) (hlang : lang ∈ langOptions) (htext : pyStrip text ≠ "") :
    (speakHandler text lang saveOk fs).1.synthCall =
      some (text, specBaseCode lang) ∧
    (lang.toList.contains '-' = true → specBaseCode lang ≠ lang) := by
  constructor
  · have h := gttsLang_eq_specBaseCode_on_options lang hlang
    simp [speakHandler, htext, h]
  · fin_cases hlang <;> decide

/-- C1 witness: concrete run with text `"hello"` and selection
`"en-uk"`; the Synthesizer receives `"en"`, not `"en-uk"`. -/
theorem speak_uses_base_language_code_witness :
    (speakHandler "hello" "en-uk" true 0).1.synthCall =
      some ("hello", specBaseCode "en-uk") ∧
    ("en-uk".toList.contains '-' = true → specBaseCode "en-uk" ≠ "en-uk") :=
  speak_uses_base_language_code "hello" "en-uk" true 0 (by decide) (by decide)

/-- C2 counterexample: `ogg` belongs to the allow-list the claim
states, yet the uploader rejects it (the `st.file_uploader` `type`
list has only wav, mp3, m4a, webm). -/
theorem uploader_rejects_ogg :
    "ogg" ∈ (["wav", "mp3", "m4a", "webm", "ogg"] : List String) ∧
      uploaderAccepts "ogg" = false := by decide

/-- C2 amended: the upload capture path accepts exactly the container
hints wav, mp3, m4a, webm; every other hint is rejected. -/
theorem uploader_allowlist (hint : String) :
    uploaderAccepts hint = true ↔
      (hint = "wav" ∨ hint = "mp3" ∨ hint = "m4a" ∨ hint = "webm") := by
  simp [uploaderAccepts, uploadTypes, List.contains]

/-- C3: the copy-into-synthesis-text operation is idempotent: applying
it twice with the same transcription result yields the same session
state as applying it once. -/
theorem confirmAndCopy_idempotent (st : PageState) (result : String) :
    confirmAndCopy (confirmAndCopy st result) result = confirmAndCopy st result :=
  rfl

/-- C4: when the synthesis text is empty or whitespace-only, the Speak
handler shows the warning, makes no Synthesizer call, and raises
nothing. -/
theorem speak_blank_text_warns (text lang : String) (saveOk : Bool) (fs : Nat)
    (h : pyStrip text = "") :
    (speakHandler text lang saveOk fs).1 =
      { warning := some "Please enter some text.",
        synthCall := none, raised := none } := by
  simp [speakHandler, h]

/-- C4 witness: concrete run with whitespace-only text. -/
theorem speak_blank_text_warns_witness :
    (speakHandler "  \t " "en" true 0).1 =
      { warning := some "Please enter some text.",
        synthCall := none, raised := none } :=
  speak_blank_text_warns "  \t " "en" true 0 (by decide)

/-- C5: a streaming capture attempt whose poll loop yields zero frames
ends with the no-frames error message, produces no WAV data, and never
invokes the waveform-to-WAV conversion. -/
theorem record_zero_frames_empty (polls : List (List Frame))
    (h : polls.flatten = []) :
    recordHandler true polls =
      { wav := none,
        errorMsg := some "No frames captured. Try allowing microphone or use upload fallback below.",
        normalizerInvoked := false } := by
  simp [recordHandler, h]

/-- C5 witness: two polls that each return no frames. -/
theorem record_zero_frames_empty_witness :
    recordHandler true [[], []] =
      { wav := none,
        errorMsg := some "No frames captured. Try allowing microphone or use upload fallback below.",
        normalizerInvoked := false } :=
  record_zero_frames_empty [[], []] rfl

/-- C6: when the AudioNormalizer rejects the uploaded bytes, the upload
handler surfaces the conversion failure, produces no transcript, never
invokes the transcriber, and leaves the scratch-file pool unchanged. -/
theorem upload_normalize_failure (normalize : List Nat → Except String (List Nat))
    (audioFileOk : List Nat → Bool) (recogGoogle : List Nat → RecogOutcome)
    (raw : List Nat) (fs : Nat) (e : String)
    (h : normalize raw = .error e) :
    uploadHandler normalize audioFileOk recogGoogle raw fs =
      ({ transcript := none,
         errorShown := some ("Upload conversion/transcription failed: " ++ e),
         transcriberInvoked := false }, fs) := by
  simp [uploadHandler, h]

/-- C6 witness: a normalizer that rejects every input, on concrete
bytes. -/
theorem upload_normalize_failure_witness :
    uploadHandler (fun _ => .error "corrupt container") (fun _ => true)
        (fun _ => .ok "hi") [0, 1] 0 =
      ({ transcript := none,
         errorShown := some "Upload conversion/transcription failed: corrupt container",
         transcriberInvoked := false }, 0) :=
  upload_normalize_failure (fun _ => .error "corrupt container") (fun _ => true)
    (fun _ => .ok "hi") [0, 1] 0 "corrupt container" rfl

/-- C7: when the guarded webrtc block raises, the exception is caught,
the failure is surfaced and recorded by clearing `webrtc_available`,
and the upload fallback is still rendered; moreover for every import
and initialization outcome the upload path is offered and nothing
propagates to the page. -/
theorem webrtc_failure_never_fatal (e : String) :
    sttPage true (.error e) =
      { webrtcAvailableAfter := false,
        initErrorShown := some "WebRTC recording failed to initialize - falling back to upload-only mode.",
        initExceptionShown := some e, uploadOffered := true,
        raisedToPage := none } ∧
    ∀ (im : Bool) (ir : Except String Unit),
      (sttPage im ir).uploadOffered = true ∧ (sttPage im ir).raisedToPage = none := by
  refine ⟨rfl, ?_⟩
  intro im ir
  cases im <;> cases ir <;> simp [sttPage]

/-- C8: every handler that creates a scratch temporary file removes it
on every exit path - for all oracle outcomes, including raising
normalizer, transcriber and synthesizer calls, the count of live
scratch files after the handler equals the count before. -/
theorem scratch_files_released (text lang : String) (saveOk : Bool)
    (audioFileOk : List Nat → Bool) (recogGoogle : List Nat → RecogOutcome)
    (wavBytes : List Nat) (normalize : List Nat → Except String (List Nat))
    (raw : List Nat) (fs : Nat) :
    (speakHandler text lang saveOk fs).2 = fs ∧
    (transcribe_wav_bytes audioFileOk recogGoogle wavBytes fs).2 = fs ∧
    (uploadHandler normalize audioFileOk recogGoogle raw fs).2 = fs := by
  refine ⟨?_, ?_, ?_⟩
  · by_cases h : pyStrip text = "" <;> simp [speakHandler, h]
  · simp [transcribe_wav_bytes]
  · cases hn : normalize raw with
    | error e => simp [uploadHandler, hn]
    | ok wavbytes =>
        simp only [uploadHandler, hn]
        cases hb : (transcribe_wav_bytes audioFileOk recogGoogle wavbytes fs).1 <;>
          simp [hb, transcribe_wav_bytes]

/-- C9: a streaming capture attempt with at least one frame hands the
conversion the concatenation, in arrival order, of the per-frame
downmixes, with the sample rate of the first frame; and the downmix of
a two-dimensional frame is the per-sample average across its
channels. -/
theorem record_concat_downmix_rate (polls : List (List Frame)) (f : Frame)
    (rest : List Frame) (hjoin : polls.flatten = f :: rest) (r : Nat)
    (hr : f.sample_rate = some r) :
    recordHandler true polls =
      { wav := some { samples := ((f :: rest).map (fun g => downmix g.data)).flatten,
                      rate := r },
        errorMsg := none, normalizerInvoked := true } ∧
    ∀ (chans : List (List ℚ)) (j : Nat), j < (chans.headD []).length →
      (downmix (.multi chans)).get? j =
        some ((chans.map (fun ch => ch.getD j 0)).sum / (chans.length : ℚ)) := by
  constructor
  · simp [recordHandler, hjoin, buildWav, hr]
  · intro chans j hj
    have hR : (List.range (chans.headD []).length)[j]? = some j :=
      List.getElem?_range hj
    simp only [downmix, List.get?_eq_getElem?, List.getElem?_map, hR,
      Option.map_some']

/-- C9 witness: a two-channel frame followed by a mono frame; the
samples are the channel averages of the first frame followed by the
second frame, and the rate is the first frame's. -/
theorem record_concat_downmix_rate_witness :
    recordHandler true
        [[⟨.multi [[1, 3], [3, 5]], some 8000⟩], [⟨.mono [7], none⟩]] =
      { wav := some
          { samples :=
              (((⟨.multi [[1, 3], [3, 5]], some 8000⟩ : Frame) ::
                  [(⟨.mono [7], none⟩ : Frame)]).map
                (fun g => downmix g.data)).flatten,
            rate := 8000 },
        errorMsg := none, normalizerInvoked := true } ∧
    ∀ (chans : List (List ℚ)) (j : Nat), j < (chans.headD []).length →
      (downmix (.multi chans)).get? j =
        some ((chans.map (fun ch => ch.getD j 0)).sum / (chans.length : ℚ)) :=
  record_concat_downmix_rate
    [[⟨.multi [[1, 3], [3, 5]], some 8000⟩], [⟨.mono [7], none⟩]]
    ⟨.multi [[1, 3], [3, 5]], some 8000⟩ [⟨.mono [7], none⟩] rfl 8000 rfl

/-- C10: a falsy transcript (absent, or the empty string) leaves the
session state untouched and never offers the copy button; and the
transcript block can only leave `tts_text` empty if it was already
empty, so the transcript path never sets it to the empty string. -/
theorem transcript_gate (transcript : Option String) (clicked : Bool)
    (st : PageState) :
    ((transcript = none ∨ transcript = some "") →
       transcriptBlock transcript clicked st = (st, false)) ∧
    ((transcriptBlock transcript clicked st).1.tts_text = "" →
       st.tts_text = "") := by
  constructor
  · rintro (rfl | rfl) <;> simp [transcriptBlock]
  · cases transcript with
    | none => simp [transcriptBlock]
    | some t =>
        by_cases ht : t = "" <;> by_cases hc : clicked <;>
          simp [transcriptBlock, ht, hc, confirmAndCopy]

/-- C10 witness: an empty-string transcript leaves a non-empty
`tts_text` untouched and offers no copy button. -/
theorem transcript_gate_witness :
    transcriptBlock (some "") true ⟨"hello"⟩ = (⟨"hello"⟩, false) :=
  (transcript_gate (some "") true ⟨"hello"⟩).1 (Or.inr rfl)
